import Mathlib

/-!
Verification of the window-visibility subsystem of the `rua` launcher.

The Lean definitions below are a shallow embedding of the Rust sources:

* `src/apps/rua/src-tauri/src/linux/display_server.rs` — display-server detection
* `src/apps/rua/src-tauri/src/linux/hyprland.rs` — Hyprland workspace queries
* `src/apps/rua/src-tauri/src/linux/x11_window.rs` — X11 protocol operations
* `src/apps/rua/src-tauri/src/linux/control_server.rs` — visibility orchestrator
* `src/apps/rua/src-tauri/src/control_server.rs` — toggle entry point

External effects (environment variables, subprocess output, X server replies,
Tauri window calls) are passed in explicitly as data; each Rust function
becomes a pure Lean function of those inputs.  `Result<T, String>` becomes
`Except String T`, `Option<T>` becomes `Option T`.
-/

deriving instance DecidableEq for Except

/-- Tag for `Result::is_err()`: true exactly on `Except.error`. -/
def resultIsErr {α β : Type} : Except α β → Bool
  | Except.error _ => true
  | Except.ok _ => false

/-- List `ys` starts with list `xs` (helper for the substring test used to
model Rust's `str::contains`). -/
def leadsList {α : Type} [DecidableEq α] : List α → List α → Bool
  | [], _ => true
  | _ :: _, [] => false
  | a :: as, b :: bs => if a = b then leadsList as bs else false

/-- Pattern `pat` occurs as a contiguous segment of `s` (at any position,
the empty pattern occurs everywhere), modelling Rust `str::contains`. -/
def occursInList {α : Type} [DecidableEq α] (pat : List α) : List α → Bool
  | [] => leadsList pat []
  | b :: rest => if leadsList pat (b :: rest) then true else occursInList pat rest

/-- Model of Rust `str::contains`: `pat` is a substring of `s`. -/
def strContains (s pat : String) : Bool :=
  occursInList pat.toList s.toList

/-- ASCII lower-casing of a single character (used only to state the
spec's "case-insensitive" comparison). -/
def asciiLower (c : Char) : Char :=
  if 'A' ≤ c ∧ c ≤ 'Z' then Char.ofNat (c.toNat + 32) else c

/-- Case-insensitive substring test, the comparison the spec describes for
the compositor-dispatch output scan. -/
def strContainsCI (s pat : String) : Bool :=
  occursInList (pat.toList.map asciiLower) (s.toList.map asciiLower)

/-- Display-server classification, from `display_server.rs`. -/
inductive DisplayServer where
  | Hyprland
  | X11
  | Unknown
deriving DecidableEq, Repr

/-- The slice of the process environment consulted by
`detect_display_server`, plus the result of the `hyprctl version` probe.
`none` models an unset variable; a set variable carries its (UTF-8) value,
so `env::var(..).is_ok()` becomes `Option.isSome`. -/
structure DetectEnv where
  hyprland_instance_signature : Option String
  hyprctl_version_success : Bool
  display : Option String
deriving DecidableEq, Repr

/-- Embedding of `detect_display_server` (display_server.rs lines 33-56):
1. `HYPRLAND_INSTANCE_SIGNATURE` set (emptiness not checked) gives Hyprland;
2. else a successful `hyprctl version` probe gives Hyprland;
3. else a set, non-empty `DISPLAY` gives X11;
4. else Unknown. -/
def detect_display_server (e : DetectEnv) : DisplayServer :=
  if e.hyprland_instance_signature.isSome then DisplayServer.Hyprland
  else if e.hyprctl_version_success then DisplayServer.Hyprland
  else
    match e.display with
    | some d => if ¬d.isEmpty then DisplayServer.X11 else DisplayServer.Unknown
    | none => DisplayServer.Unknown

/-- The detection algorithm exactly as claim C4 words it: Hyprland requires
the Hyprland variable to be present AND non-empty.  Written from the claim,
to be compared against the source embedding. -/
def detect_display_server_claimed (e : DetectEnv) : DisplayServer :=
  if ¬(e.hyprland_instance_signature.getD "").isEmpty then DisplayServer.Hyprland
  else if e.hyprctl_version_success then DisplayServer.Hyprland
  else if ¬(e.display.getD "").isEmpty then DisplayServer.X11
  else DisplayServer.Unknown

/-- The detection algorithm as amended: step 1 fires on mere presence of the
Hyprland variable, empty value included; the later steps are unchanged. -/
def detect_display_server_amended (e : DetectEnv) : DisplayServer :=
  if e.hyprland_instance_signature.isSome then DisplayServer.Hyprland
  else if e.hyprctl_version_success then DisplayServer.Hyprland
  else if ¬(e.display.getD "").isEmpty then DisplayServer.X11
  else DisplayServer.Unknown

/-- Shallow model of a `serde_json::Value`.  Numbers are modelled as `Int`
(the claims only exercise i64-valued ids, which is what `as_i64` extracts). -/
inductive JsonVal where
  | null
  | bool (b : Bool)
  | num (n : Int)
  | str (s : String)
  | arr (elems : List JsonVal)
  | obj (fields : List (String × JsonVal))

/-- Model of `serde_json` `Value` indexing `v[key]`: the value at the first
field named `key` of an object, `Null` on a missing key or a non-object. -/
def JsonVal.index (v : JsonVal) (key : String) : JsonVal :=
  match v with
  | JsonVal.obj fields =>
    match fields.find? (fun p => p.1 = key) with
    | some p => p.2
    | none => JsonVal.null
  | _ => JsonVal.null

/-- Model of `Value::as_i64`. -/
def JsonVal.as_i64 : JsonVal → Option Int
  | JsonVal.num n => some n
  | _ => none

/-- Model of `Value::as_str`. -/
def JsonVal.as_str : JsonVal → Option String
  | JsonVal.str s => some s
  | _ => none

/-- Model of `Value::as_array`. -/
def JsonVal.as_array : JsonVal → Option (List JsonVal)
  | JsonVal.arr xs => some xs
  | _ => none

/-- Outcome of one `Command::output()` + status check + `serde_json`
parse pipeline, the shape every `hyprctl` JSON query in `hyprland.rs` uses:
either the spawn failed, or the process exited unsuccessfully (carrying its
stderr), or stdout was not valid JSON, or it parsed to a JSON value. -/
inductive CmdResult where
  | spawnErr (msg : String)
  | failed (stderr : String)
  | badJson (msg : String)
  | json (v : JsonVal)

/-- Raw outcome of a spawned `hyprctl dispatch` subprocess: exit-status
success flag, stdout and stderr (both already lossily decoded to text). -/
structure SpawnOut where
  statusSuccess : Bool
  stdout : String
  stderr : String
deriving DecidableEq, Repr

/-- Outcome of `Command::output()` for a dispatch command: spawn error or a
completed process. -/
inductive SpawnResult where
  | spawnErr (msg : String)
  | out (o : SpawnOut)
deriving DecidableEq, Repr

/-- Embedding of `get_active_workspace` (hyprland.rs lines 6-25): runs
`hyprctl activeworkspace -j` (outcome `res`), then reads the integer `id`
field of the parsed JSON. -/
def get_active_workspace (res : CmdResult) : Except String Int :=
  match res with
  | CmdResult.spawnErr m => Except.error ("Failed to get active workspace: " ++ m)
  | CmdResult.failed stderr => Except.error ("Failed to get active workspace: " ++ stderr)
  | CmdResult.badJson m => Except.error ("Failed to parse workspace JSON: " ++ m)
  | CmdResult.json v =>
    match (v.index "id").as_i64 with
    | some i => Except.ok i
    | none => Except.error "Failed to get workspace ID from JSON"

/-- The scan of the clients array in `get_window_workspace`: the first
client whose `class` field is a string equal to `cls`. -/
def findClient (cls : String) : List JsonVal → Option JsonVal
  | [] => none
  | c :: rest =>
    match (c.index "class").as_str with
    | some cc => if cc = cls then some c else findClient cls rest
    | none => findClient cls rest

/-- Embedding of `get_window_workspace` (hyprland.rs lines 28-55): runs
`hyprctl clients -j` (outcome `res`) and returns the `workspace.id` of the
first client whose `class` equals `cls`, `none` when no client matches or
the JSON is not an array. -/
def get_window_workspace (cls : String) (res : CmdResult) : Except String (Option Int) :=
  match res with
  | CmdResult.spawnErr m => Except.error ("Failed to get clients: " ++ m)
  | CmdResult.failed stderr => Except.error ("Failed to get clients: " ++ stderr)
  | CmdResult.badJson m => Except.error ("Failed to parse clients JSON: " ++ m)
  | CmdResult.json v =>
    match v.as_array with
    | some cs =>
      match findClient cls cs with
      | some c => Except.ok (((c.index "workspace").index "id").as_i64)
      | none => Except.ok none
    | none => Except.ok none

/-- Embedding of `is_window_on_current_workspace` (hyprland.rs lines 58-66):
compares the active workspace id (from `activeRes`) with the workspace id of
the window of class `cls` (from `clientsRes`); a missing window is `none`
and thus never equal to `some active`. -/
def is_window_on_current_workspace (cls : Option String)
    (activeRes clientsRes : CmdResult) : Except String Bool :=
  let class_name := cls.getD "rua"
  match get_active_workspace activeRes with
  | Except.error e => Except.error e
  | Except.ok active =>
    match get_window_workspace class_name clientsRes with
    | Except.error e => Except.error e
    | Except.ok w => Except.ok (decide (w = some active))

/-- Embedding of `move_to_current_workspace` (hyprland.rs lines 92-112):
queries the active workspace (outcome `activeRes`), then runs
`hyprctl dispatch movetoworkspacesilent` (outcome `dispatch`); the dispatch
is judged failed exactly when its stdout contains the literal substring
`"Error"` or the literal substring `"error"` — the exit status of the
dispatch subprocess is never consulted. -/
def move_to_current_workspace (cls : Option String)
    (activeRes : CmdResult) (dispatch : SpawnResult) : Except String Unit :=
  let _class_name := cls.getD "rua"
  match get_active_workspace activeRes with
  | Except.error e => Except.error e
  | Except.ok _workspace_id =>
    match dispatch with
    | SpawnResult.spawnErr m => Except.error ("Failed to execute hyprctl: " ++ m)
    | SpawnResult.out o =>
      if strContains o.stdout "Error" || strContains o.stdout "error" then
        Except.error ("hyprctl command failed: " ++ o.stdout)
      else
        Except.ok ()

/-- Per-call outcomes of the X11 protocol requests one `X11WindowManager`
show/hide invocation performs (x11_window.rs).  Each field is the result of
the corresponding `x11rb` call, with the error rendered as a string exactly
as the source's `map_err` closures do.  `ewmh_flush` is the `flush` issued
inside `send_net_active_window`; `flush` is the one issued by
`show_window` step 5 / `hide_window` step 2. -/
structure X11Conn where
  map_window : Except String Unit
  configure_window : Except String Unit
  set_input_focus : Except String Unit
  intern_atom : Except String Unit
  atom_reply : Except String Unit
  send_event : Except String Unit
  ewmh_flush : Except String Unit
  unmap_window : Except String Unit
  flush : Except String Unit
deriving DecidableEq, Repr

/-- Embedding of `send_net_active_window` (x11_window.rs lines 176-214):
intern the `_NET_ACTIVE_WINDOW` atom, wait for the reply, send the client
message to the root window, flush; the first failing step aborts with its
tagged error message. -/
def send_net_active_window (c : X11Conn) : Except String Unit :=
  match c.intern_atom with
  | Except.error e => Except.error ("intern_atom failed: " ++ e)
  | Except.ok _ =>
    match c.atom_reply with
    | Except.error e => Except.error ("atom reply failed: " ++ e)
    | Except.ok _ =>
      match c.send_event with
      | Except.error e => Except.error ("send_event failed: " ++ e)
      | Except.ok _ =>
        match c.ewmh_flush with
        | Except.error e => Except.error ("flush failed: " ++ e)
        | Except.ok _ => Except.ok ()

/-- Embedding of `X11WindowManager::show_window` (x11_window.rs lines
64-92): map, configure stacking, set input focus — each fatal on failure —
then `send_net_active_window`, whose failure is only logged, then flush,
which is again fatal on failure. -/
def x11_show_window (c : X11Conn) : Except String Unit :=
  match c.map_window with
  | Except.error e => Except.error ("map_window failed: " ++ e)
  | Except.ok _ =>
    match c.configure_window with
    | Except.error e => Except.error ("configure_window failed: " ++ e)
    | Except.ok _ =>
      match c.set_input_focus with
      | Except.error e => Except.error ("set_input_focus failed: " ++ e)
      | Except.ok _ =>
        let _ewmh_logged_only := send_net_active_window c
        match c.flush with
        | Except.error e => Except.error ("flush failed: " ++ e)
        | Except.ok _ => Except.ok ()

/-- Embedding of `X11WindowManager::hide_window` (x11_window.rs lines
99-110): unmap then flush, each fatal on failure. -/
def x11_hide_window (c : X11Conn) : Except String Unit :=
  match c.unmap_window with
  | Except.error e => Except.error ("unmap_window failed: " ++ e)
  | Except.ok _ =>
    match c.flush with
    | Except.error e => Except.error ("flush failed: " ++ e)
    | Except.ok _ => Except.ok ()

/-- The NUL byte separating the strings of a `WM_CLASS` property value.
Property bytes are modelled as Unicode scalars (`List Char`), exact for the
single-byte content the claims exercise. -/
def nulChar : Char := Char.ofNat 0

/-- Embedding of `get_window_class` (x11_window.rs lines 119-147) applied
to the property value returned by the `GetProperty` round-trip (`none` when
either the request or the reply failed): split the value on NUL, drop empty
parts; two or more parts give `(instance, class)`, exactly one part serves
as both, zero parts give `none`. -/
def get_window_class (prop : Option (List Char)) : Option (String × String) :=
  match prop with
  | none => none
  | some value =>
    let parts := (value.splitOn nulChar).filter (fun p => !p.isEmpty)
    match parts with
    | p0 :: p1 :: _ => some (String.mk p0, String.mk p1)
    | [p0] => some (String.mk p0, String.mk p0)
    | [] => none

/-- The per-window match test of `find_window_by_class`: the window's
`WM_CLASS` parses and its instance or class string equals `cls` exactly. -/
def matchesClass (getProp : Nat → Option (List Char)) (cls : String) (w : Nat) : Bool :=
  match get_window_class (getProp w) with
  | some (instanceName, className) => decide (instanceName = cls ∨ className = cls)
  | none => false

/-- Embedding of `X11WindowManager::find_window_by_class` (x11_window.rs
lines 37-55): scan the traversal order produced by `get_all_windows`
(parameter `windows`, root first), reading each window's `WM_CLASS` through
`getProp`; return the first window whose instance or class equals
`cls` exactly (case-sensitive), `none` when no window matches. -/
def find_window_by_class (getProp : Nat → Option (List Char))
    (windows : List Nat) (cls : String) : Option Nat :=
  match windows with
  | [] => none
  | w :: rest =>
    match get_window_class (getProp w) with
    | some (instanceName, className) =>
      if instanceName = cls ∨ className = cls then some w
      else find_window_by_class getProp rest cls
    | none => find_window_by_class getProp rest cls

/-- Results of the generic Tauri window calls the orchestrator makes; each
field is the outcome that call produces when invoked during the request
(the error string is the rendered Tauri error). -/
structure TauriWindow where
  center : Except String Unit
  show' : Except String Unit
  hide : Except String Unit
  set_focus : Except String Unit
deriving DecidableEq, Repr

/-- One observable call the orchestrator makes, in program order.  The
display-server-specific entries record whether the call succeeded (those
failures are logged and swallowed); the generic GUI-layer entries `guiShow`
and `guiHide` are the Tauri `window.show()` / `window.hide()` calls whose
failure is the only one surfaced. -/
inductive CallEv where
  | hyprMove (ok : Bool)
  | hyprIsOnCurrent
  | hyprFocusByClass (ok : Bool)
  | x11Connect (connected : Bool)
  | x11FindWindow (found : Bool)
  | x11Show (ok : Bool)
  | x11Hide (ok : Bool)
  | guiCenter
  | guiShow
  | guiHide
  | guiSetFocus
  | emit (event : String)
deriving DecidableEq, Repr

/-- One `X11WindowManager::new()` session as the orchestrator sees it: the
result of `find_window_by_class("rua")` and the per-call outcomes of the
protocol operations on the found window. -/
structure X11Session where
  findWindow : Option Nat
  conn : X11Conn
deriving DecidableEq, Repr

/-- Inputs of one orchestrator request (linux/control_server.rs): the
detected display server, the results the Hyprland helper calls would
return, the X11 session if `X11WindowManager::new()` connects, and the
generic Tauri window call outcomes.

`focusByClass` is Modelled from the spec: the source calls
`hyprland::focus_by_class`, whose definition is absent from the snapshot;
per spec section 4.3 it dispatches a focus-window-by-class command and
returns a `Result` that the orchestrator only logs, so just that `Result`
is modelled. -/
structure OrchEnv where
  ds : DisplayServer
  moveToCurrent : Except String Unit
  isOnCurrent : Except String Bool
  focusByClass : Except String Unit
  x11 : Option X11Session
  win : TauriWindow
deriving DecidableEq, Repr

/-- Display-server-specific preamble of `show_window`
(linux/control_server.rs lines 8-38): Hyprland moves the window to the
current workspace (failure logged); X11 connects, locates the window and
attempts an X11-native show (failures logged); Unknown does nothing. -/
def showPreamble (env : OrchEnv) : List CallEv :=
  match env.ds with
  | DisplayServer.Hyprland => [CallEv.hyprMove (!resultIsErr env.moveToCurrent)]
  | DisplayServer.X11 =>
    match env.x11 with
    | some s =>
      match s.findWindow with
      | some _ =>
        [CallEv.x11Connect true, CallEv.x11FindWindow true,
         CallEv.x11Show (!resultIsErr (x11_show_window s.conn))]
      | none => [CallEv.x11Connect true, CallEv.x11FindWindow false]
    | none => [CallEv.x11Connect false]
  | DisplayServer.Unknown => []

/-- Embedding of `show_window` (linux/control_server.rs lines 5-54): run
the display-server-specific preamble (all failures logged and swallowed),
then always center (failure logged), show (failure aborts the request),
set focus (failure logged) and emit `rua://window-shown` via the generic
Tauri layer.  Returns the ordered call trace and the request result. -/
def linux_show_window (env : OrchEnv) : List CallEv × Except String String :=
  let pre := showPreamble env ++ [CallEv.guiCenter]
  match env.win.show' with
  | Except.error e =>
    (pre ++ [CallEv.guiShow], Except.error ("Failed to show window: " ++ e))
  | Except.ok _ =>
    (pre ++ [CallEv.guiShow, CallEv.guiSetFocus, CallEv.emit "rua://window-shown"],
     Except.ok "Window shown")

/-- Common tail of the `hide_window` paths that hide: the generic Tauri
`hide` (failure aborts the request) followed by the `rua://window-hidden`
event. -/
def hideTail (win : TauriWindow) (pre : List CallEv) : List CallEv × Except String String :=
  match win.hide with
  | Except.error e =>
    (pre ++ [CallEv.guiHide], Except.error ("Failed to hide window: " ++ e))
  | Except.ok _ =>
    (pre ++ [CallEv.guiHide, CallEv.emit "rua://window-hidden"], Except.ok "Window hidden")

/-- Embedding of `hide_window` (linux/control_server.rs lines 60-128).
Hyprland asks whether the window is on the current workspace: `Ok(true)`
hides via the generic layer and returns; `Ok(false)` moves the window to
the current workspace, centers, refocuses, dispatches focus-by-class (all
failures logged), emits `rua://window-shown` and returns success without
any generic show or hide call; `Err` falls through to the generic hide.
X11 attempts a native unmap (failures logged) and falls through; Unknown
falls straight through.  The fall-through is the generic hide plus the
`rua://window-hidden` event. -/
def linux_hide_window (env : OrchEnv) : List CallEv × Except String String :=
  match env.ds with
  | DisplayServer.Hyprland =>
    match env.isOnCurrent with
    | Except.ok true => hideTail env.win [CallEv.hyprIsOnCurrent]
    | Except.ok false =>
      ([CallEv.hyprIsOnCurrent, CallEv.hyprMove (!resultIsErr env.moveToCurrent),
        CallEv.guiCenter, CallEv.guiSetFocus,
        CallEv.hyprFocusByClass (!resultIsErr env.focusByClass),
        CallEv.emit "rua://window-shown"],
       Except.ok "Window moved to current workspace")
    | Except.error _ => hideTail env.win [CallEv.hyprIsOnCurrent]
  | DisplayServer.X11 =>
    let pre :=
      match env.x11 with
      | some s =>
        match s.findWindow with
        | some _ =>
          [CallEv.x11Connect true, CallEv.x11FindWindow true,
           CallEv.x11Hide (!resultIsErr (x11_hide_window s.conn))]
        | none => [CallEv.x11Connect true, CallEv.x11FindWindow false]
      | none => [CallEv.x11Connect false]
    hideTail env.win pre
  | DisplayServer.Unknown => hideTail env.win []

/-- True exactly on the `hide_window` path that performs no generic hide:
display server Hyprland with the workspace check answering `Ok(false)`
(window visible on another workspace). -/
def hyprMovePath (env : OrchEnv) : Bool :=
  match env.ds, env.isOnCurrent with
  | DisplayServer.Hyprland, Except.ok false => true
  | _, _ => false

/-- Effect of one traced call on the generic GUI-layer visibility flag: a
successful `window.show()` sets it, a successful `window.hide()` clears
it, every other call (and a failing show/hide) leaves it unchanged. -/
def applyCall (win : TauriWindow) (flag : Bool) (c : CallEv) : Bool :=
  match c with
  | CallEv.guiShow => match win.show' with | Except.ok _ => true | Except.error _ => flag
  | CallEv.guiHide => match win.hide with | Except.ok _ => false | Except.error _ => flag
  | _ => flag

/-- Final value of the generic visibility flag after running a call trace
from the starting value `flag`. -/
def runFlag (win : TauriWindow) (flag : Bool) (trace : List CallEv) : Bool :=
  trace.foldl (applyCall win) flag

/-- Embedding of the `/toggle` request (control_server.rs `toggle_window`
lines 27-189 composed with the display-server-aware orchestrator of
linux/control_server.rs): read the generic visibility flag
(`window.is_visible()`), hide when visible, show when hidden, and return
the updated flag together with the request result. -/
def toggle (env : OrchEnv) (flag : Bool) : Bool × Except String String :=
  let r := if flag then linux_hide_window env else linux_show_window env
  (runFlag env.win flag r.1, r.2)

/-- Generic Tauri window whose calls all succeed. -/
def okWin : TauriWindow :=
  ⟨Except.ok (), Except.ok (), Except.ok (), Except.ok ()⟩

/-- Orchestrator inputs: Hyprland, workspace check answering `Ok(false)`
(window visible on another workspace), every external call succeeding. -/
def envHyprElsewhere : OrchEnv :=
  ⟨DisplayServer.Hyprland, Except.ok (), Except.ok false, Except.ok (), none, okWin⟩

/-- Orchestrator inputs: Hyprland with the window on the current workspace. -/
def envHyprOnCurrent : OrchEnv :=
  ⟨DisplayServer.Hyprland, Except.ok (), Except.ok true, Except.ok (), none, okWin⟩

/-- Orchestrator inputs: unknown display server, every generic call
succeeding. -/
def envUnknownOk : OrchEnv :=
  ⟨DisplayServer.Unknown, Except.ok (), Except.ok true, Except.ok (), none, okWin⟩

/-- Orchestrator inputs: X11 with no X11 connection available. -/
def envX11NoConn : OrchEnv :=
  ⟨DisplayServer.X11, Except.ok (), Except.ok false, Except.ok (), none, okWin⟩

/-- Parsed `hyprctl activeworkspace -j` output whose id is 3. -/
def activeJson3 : JsonVal := JsonVal.obj [("id", JsonVal.num 3)]

/-- A parsed client object of class `"rua"` whose workspace id is `n`. -/
def ruaClientOn (n : Int) : JsonVal :=
  JsonVal.obj
    [("class", JsonVal.str "rua"),
     ("workspace", JsonVal.obj [("id", JsonVal.num n)])]

/-- WM_CLASS property lookup for the claim C8 example tree: window 1 holds
the property bytes of the string pair `"foo"`/`"Bar"`, window 2 those of
`"baz"`/`"Qux"`. -/
def gpExample : Nat → Option (List Char) := fun w =>
  if w = 1 then some ("foo".toList ++ [nulChar] ++ "Bar".toList ++ [nulChar])
  else if w = 2 then some ("baz".toList ++ [nulChar] ++ "Qux".toList ++ [nulChar])
  else none

/-- WM_CLASS lookup where every window's property value is the single
NUL-terminated string `"rua"`. -/
def gpSingle : Nat → Option (List Char) := fun _ => some ("rua".toList ++ [nulChar])

/-- X11 per-call outcomes where every protocol call succeeds except the
final flush of `show_window` / `hide_window`. -/
def x11FlushFails : X11Conn :=
  ⟨Except.ok (), Except.ok (), Except.ok (), Except.ok (), Except.ok (),
   Except.ok (), Except.ok (), Except.ok (), Except.error "broken pipe"⟩

/-- Claim C4 counterexample: with `HYPRLAND_INSTANCE_SIGNATURE` present but
set to the empty string, the `hyprctl` probe failing and `DISPLAY` set to a
non-empty string, the code returns Hyprland whereas the claim's algorithm
(presence AND non-emptiness required for step 1) demands X11. -/
theorem C4_counterexample :
    detect_display_server ⟨some "", false, some ":0"⟩ = DisplayServer.Hyprland ∧
    detect_display_server_claimed ⟨some "", false, some ":0"⟩ = DisplayServer.X11 ∧
    detect_display_server ⟨some "", false, some ":0"⟩ ≠
      detect_display_server_claimed ⟨some "", false, some ":0"⟩ := by
  refine ⟨rfl, by decide, by decide⟩

/-- Claim C4 as amended: `detect_display_server` follows the ordered
first-match algorithm in which step 1 fires on mere PRESENCE of the
Hyprland variable (empty value included); otherwise Hyprland on a
successful probe; otherwise X11 on a set, non-empty `DISPLAY`; otherwise
Unknown.  In particular a present variable gives Hyprland regardless of
its value and of `DISPLAY`. -/
theorem C4_detect_display_server (e : DetectEnv) :
    detect_display_server e = detect_display_server_amended e ∧
    (∀ s, e.hyprland_instance_signature = some s →
      detect_display_server e = DisplayServer.Hyprland) ∧
    (e.hyprland_instance_signature = none → e.hyprctl_version_success = false →
      ∀ d, e.display = some d → ¬d.isEmpty →
        detect_display_server e = DisplayServer.X11) ∧
    (e.hyprland_instance_signature = none → e.hyprctl_version_success = false →
      (e.display.getD "").isEmpty →
        detect_display_server e = DisplayServer.Unknown) := by
  obtain ⟨h, p, d⟩ := e
  refine ⟨?_, ?_, ?_, ?_⟩
  · cases h with
    | some s => simp [detect_display_server, detect_display_server_amended]
    | none =>
      cases p with
      | true => simp [detect_display_server, detect_display_server_amended]
      | false =>
        cases d with
        | none => decide
        | some d' =>
          by_cases hd : d'.isEmpty <;>
            simp [detect_display_server, detect_display_server_amended, hd]
  · rintro s rfl
    simp [detect_display_server]
  · rintro rfl hp d' rfl hd
    simp_all [detect_display_server]
  · rintro rfl hp hd
    cases d with
    | none => simp_all [detect_display_server]
    | some d' => simp_all [detect_display_server, Option.getD]

/-- Claim C4 witness: a present non-empty variable yields Hyprland even
with `DISPLAY` set; an absent variable with a failing probe and a non-empty
`DISPLAY` yields X11. -/
theorem C4_witness :
    detect_display_server ⟨some "sig", false, some ":1"⟩ = DisplayServer.Hyprland ∧
    detect_display_server ⟨none, false, some ":1"⟩ = DisplayServer.X11 :=
  ⟨(C4_detect_display_server ⟨some "sig", false, some ":1"⟩).2.1 "sig" rfl,
   (C4_detect_display_server ⟨none, false, some ":1"⟩).2.2.1 rfl rfl ":1" rfl (by decide)⟩

/-- Claim C5 counterexample: with the active-workspace query succeeding and
the dispatch subprocess exiting with stdout `"ERROR"`, the claim's
case-insensitive reading demands a failure, but the code (which scans only
for the literal substrings `"Error"` and `"error"`) returns `Ok(())`. -/
theorem C5_counterexample :
    move_to_current_workspace (some "rua") (CmdResult.json activeJson3)
      (SpawnResult.out ⟨true, "ERROR", ""⟩) = Except.ok () ∧
    strContainsCI "ERROR" "error" = true ∧
    strContains "ERROR" "Error" = false ∧
    strContains "ERROR" "error" = false := by
  refine ⟨rfl, by decide, by decide, by decide⟩

/-- Claim C5 as amended: given that the active-workspace query succeeds and
the dispatch subprocess spawns, `move_to_current_workspace` returns an
error if and only if the subprocess's stdout contains the literal substring
`"Error"` or the literal substring `"error"` (a case-sensitive scan for the
two spellings, not a case-insensitive one); the exit code is irrelevant. -/
theorem C5_move_error_iff (cls : Option String) (activeRes : CmdResult)
    (o : SpawnOut) (wid : Int)
    (hactive : get_active_workspace activeRes = Except.ok wid) :
    resultIsErr (move_to_current_workspace cls activeRes (SpawnResult.out o))
      = (strContains o.stdout "Error" || strContains o.stdout "error") := by
  unfold move_to_current_workspace
  rw [hactive]
  by_cases h : (strContains o.stdout "Error" || strContains o.stdout "error") = true
  · simp [h, resultIsErr]
  · simp only [Bool.not_eq_true] at h
    simp [h, resultIsErr]

/-- Claim C5 witness: stdout `"Error: bad"` makes the dispatch fail even
though the exit status was success. -/
theorem C5_witness :
    get_active_workspace (CmdResult.json activeJson3) = Except.ok 3 ∧
    resultIsErr (move_to_current_workspace (some "rua") (CmdResult.json activeJson3)
        (SpawnResult.out ⟨true, "Error: bad", ""⟩))
      = (strContains "Error: bad" "Error" || strContains "Error: bad" "error") ∧
    (strContains "Error: bad" "Error" || strContains "Error: bad" "error") = true :=
  ⟨rfl,
   C5_move_error_iff (some "rua") (CmdResult.json activeJson3) ⟨true, "Error: bad", ""⟩ 3 rfl,
   by decide⟩

/-- Claim C9: `move_to_current_workspace` never inspects the dispatch
subprocess's exit status — flipping the status flag never changes the
result, and in particular a spawned subprocess that exits unsuccessfully
while its stdout contains neither `"error"` nor `"Error"` yields `Ok(())`. -/
theorem C9_move_ignores_exit_status (cls : Option String) (activeRes : CmdResult)
    (wid : Int) (o : SpawnOut)
    (hactive : get_active_workspace activeRes = Except.ok wid)
    (_hstatus : o.statusSuccess = false)
    (h1 : strContains o.stdout "Error" = false)
    (h2 : strContains o.stdout "error" = false) :
    move_to_current_workspace cls activeRes (SpawnResult.out o) = Except.ok () ∧
    (∀ b : Bool,
      move_to_current_workspace cls activeRes (SpawnResult.out ⟨b, o.stdout, o.stderr⟩)
        = move_to_current_workspace cls activeRes (SpawnResult.out o)) := by
  constructor
  · unfold move_to_current_workspace
    rw [hactive]
    simp [h1, h2]
  · intro b
    unfold move_to_current_workspace
    rw [hactive]

/-- Claim C9 witness: a non-zero exit status with benign stdout still
yields success. -/
theorem C9_witness :
    move_to_current_workspace (some "rua") (CmdResult.json activeJson3)
      (SpawnResult.out ⟨false, "ok", ""⟩) = Except.ok () :=
  (C9_move_ignores_exit_status (some "rua") (CmdResult.json activeJson3) 3
    ⟨false, "ok", ""⟩ rfl rfl (by decide) (by decide)).1



/-- Claim C7: when both hyprctl queries succeed with well-formed JSON —
the active-workspace object carrying integer id `aid` and the client list
parsing to the array `cs` — `is_window_on_current_workspace` answers
`Ok(true)` exactly when the first client whose `class` equals the request
has workspace id `aid`, and `Ok(false)` when no client matches (a missing
window is never equal to any active id). -/
theorem C7_is_on_current_workspace (cls : String) (va vc : JsonVal)
    (aid : Int) (cs : List JsonVal)
    (ha : (va.index "id").as_i64 = some aid)
    (hc : vc.as_array = some cs) :
    (∀ c, findClient cls cs = some c →
      is_window_on_current_workspace (some cls) (CmdResult.json va) (CmdResult.json vc)
        = Except.ok (decide (((c.index "workspace").index "id").as_i64 = some aid))) ∧
    (findClient cls cs = none →
      is_window_on_current_workspace (some cls) (CmdResult.json va) (CmdResult.json vc)
        = Except.ok false) := by
  constructor
  · intro c hfind
    unfold is_window_on_current_workspace get_active_workspace get_window_workspace
    simp [ha, hc, hfind]
  · intro hnone
    unfold is_window_on_current_workspace get_active_workspace get_window_workspace
    simp [ha, hc, hnone]

/-- Claim C7 witness: active workspace 3 with a client of class `"rua"` on
workspace 3 answers true; the same client moved to workspace 5 answers
false. -/
theorem C7_witness :
    is_window_on_current_workspace (some "rua") (CmdResult.json activeJson3)
      (CmdResult.json (JsonVal.arr [ruaClientOn 3])) = Except.ok true ∧
    is_window_on_current_workspace (some "rua") (CmdResult.json activeJson3)
      (CmdResult.json (JsonVal.arr [ruaClientOn 5])) = Except.ok false :=
  ⟨(C7_is_on_current_workspace "rua" activeJson3 (JsonVal.arr [ruaClientOn 3]) 3
      [ruaClientOn 3] rfl rfl).1 (ruaClientOn 3) rfl,
   (C7_is_on_current_workspace "rua" activeJson3 (JsonVal.arr [ruaClientOn 5]) 3
      [ruaClientOn 5] rfl rfl).1 (ruaClientOn 5) rfl⟩

/-- Claim C6 counterexample: with mapping, configuring and focusing all
succeeding (and every EWMH step succeeding) but the final connection flush
failing, `X11WindowManager::show_window` returns an error — contradicting
the claim that an error is returned only if the mapping, configuring, or
focusing call fails. -/
theorem C6_counterexample :
    x11_show_window x11FlushFails = Except.error "flush failed: broken pipe" ∧
    x11FlushFails.map_window = Except.ok () ∧
    x11FlushFails.configure_window = Except.ok () ∧
    x11FlushFails.set_input_focus = Except.ok () :=
  ⟨rfl, rfl, rfl, rfl⟩

/-- Claim C6 as amended: `show_window` performs map, raise, set-input-focus,
the EWMH `_NET_ACTIVE_WINDOW` client message and a connection flush, and
returns an error exactly when the mapping, configuring, focusing or final
flush call fails; failures of the EWMH client-message step (atom interning,
atom reply, event send, inner flush) are swallowed and never influence the
result. -/
theorem C6_x11_show_window_errors (c : X11Conn) :
    resultIsErr (x11_show_window c)
      = (resultIsErr c.map_window || resultIsErr c.configure_window ||
         resultIsErr c.set_input_focus || resultIsErr c.flush) ∧
    (∀ a b d e : Except String Unit,
      x11_show_window
        { c with intern_atom := a, atom_reply := b, send_event := d, ewmh_flush := e }
        = x11_show_window c) := by
  obtain ⟨mw, cw, sif, ia, ar, se, ef, uw, fl⟩ := c
  constructor
  · cases mw <;> cases cw <;> cases sif <;> cases fl <;>
      simp [x11_show_window, resultIsErr]
  · intro a b d e
    cases mw <;> cases cw <;> cases sif <;> cases fl <;>
      simp [x11_show_window]

/-- Claim C8: for every window tree traversal and WM_CLASS property map,
`find_window_by_class` returns exactly the first traversed window whose
WM_CLASS instance or class string equals the requested class (this is
`List.find?` of the per-window match test), and returns `none` precisely
when no traversed window's instance or class equals it. -/
theorem C8_find_window_by_class (getProp : Nat → Option (List Char))
    (windows : List Nat) (cls : String) :
    find_window_by_class getProp windows cls
      = windows.find? (matchesClass getProp cls) ∧
    (find_window_by_class getProp windows cls = none ↔
      ∀ w ∈ windows, matchesClass getProp cls w = false) := by
  have hfind : find_window_by_class getProp windows cls
      = windows.find? (matchesClass getProp cls) := by
    induction windows with
    | nil => rfl
    | cons w rest ih =>
      unfold find_window_by_class
      cases hgw : get_window_class (getProp w) with
      | none =>
        have hm : matchesClass getProp cls w = false := by
          simp [matchesClass, hgw]
        simp [List.find?, hm, ih]
      | some pair =>
        obtain ⟨inst, cl⟩ := pair
        by_cases hmatch : inst = cls ∨ cl = cls
        · have hm : matchesClass getProp cls w = true := by
            simp [matchesClass, hgw, hmatch]
          simp [List.find?, hm, hmatch]
        · have hm : matchesClass getProp cls w = false := by
            simp only [matchesClass, hgw, decide_eq_false_iff_not]
            exact hmatch
          simp [List.find?, hm, hmatch, ih]
  refine ⟨hfind, ?_⟩
  rw [hfind, List.find?_eq_none]
  constructor
  · intro h w hw
    have := h w hw
    simpa using this
  · intro h w hw
    simp [h w hw]

/-- Claim C8 witness: in a tree whose traversal visits window 1 with
WM_CLASS `"foo\0Bar\0"` then window 2 with `"baz\0Qux\0"`, searching for
`"Bar"` returns window 1 and searching for an absent class returns none. -/
theorem C8_witness :
    find_window_by_class gpExample [1, 2] "Bar"
      = List.find? (matchesClass gpExample "Bar") [1, 2] ∧
    find_window_by_class gpExample [1, 2] "Bar" = some 1 ∧
    find_window_by_class gpExample [1, 2] "Nope" = none :=
  ⟨(C8_find_window_by_class gpExample [1, 2] "Bar").1, by decide, by decide⟩

/-- Claim C10: when a window's WM_CLASS property value holds exactly one
non-empty NUL-separated string, `get_window_class` returns that string as
both the instance and the class, and `find_window_by_class`'s match test
accepts such a window whenever the requested class equals that string. -/
theorem C10_single_wm_class_string (value p : List Char)
    (h : (value.splitOn nulChar).filter (fun x => !x.isEmpty) = [p]) :
    get_window_class (some value) = some (String.mk p, String.mk p) ∧
    (∀ (getProp : Nat → Option (List Char)) (w : Nat),
      getProp w = some value → matchesClass getProp (String.mk p) w = true) := by
  have hgw : get_window_class (some value) = some (String.mk p, String.mk p) := by
    show (match (value.splitOn nulChar).filter (fun x => !x.isEmpty) with
          | p0 :: p1 :: _ => some (String.mk p0, String.mk p1)
          | [p0] => some (String.mk p0, String.mk p0)
          | [] => none) = some (String.mk p, String.mk p)
    rw [h]
  refine ⟨hgw, ?_⟩
  intro getProp w hw
  unfold matchesClass
  rw [hw, hgw]
  simp

/-- Claim C10 witness: the property value `"rua\0"` parses to the pair
`("rua", "rua")` and a window carrying it matches a search for `"rua"`. -/
theorem C10_witness :
    get_window_class (some ("rua".toList ++ [nulChar])) = some ("rua", "rua") ∧
    matchesClass gpSingle "rua" 7 = true :=
  ⟨((C10_single_wm_class_string ("rua".toList ++ [nulChar]) "rua".toList (by decide)).1),
   ((C10_single_wm_class_string ("rua".toList ++ [nulChar]) "rua".toList (by decide)).2
      gpSingle 7 rfl)⟩

/-- Claim C3: the orchestrator surfaces an error exactly when the generic
GUI-layer call fails — `show_window` errs iff the always-executed generic
`show` errs, and `hide_window` errs iff a generic `hide` was performed on
its path (every path except the Hyprland window-on-other-workspace one)
and that `hide` errs.  All display-server-specific failures and generic
`center`/`set_focus` failures are swallowed: the error status depends on
nothing else. -/
theorem C3_error_surfacing (env : OrchEnv) :
    resultIsErr (linux_show_window env).2 = resultIsErr env.win.show' ∧
    resultIsErr (linux_hide_window env).2
      = (!hyprMovePath env && resultIsErr env.win.hide) := by
  obtain ⟨ds, mv, ioc, fbc, x11, win⟩ := env
  constructor
  · cases hs : win.show' <;>
      simp [linux_show_window, hs, resultIsErr]
  · cases ds with
    | Hyprland =>
      cases ioc with
      | ok b =>
        cases b <;> cases hh : win.hide <;>
          simp [linux_hide_window, hideTail, hyprMovePath, hh, resultIsErr]
      | error e =>
        cases hh : win.hide <;>
          simp [linux_hide_window, hideTail, hyprMovePath, hh, resultIsErr]
    | X11 =>
      cases hh : win.hide <;>
        simp [linux_hide_window, hideTail, hyprMovePath, hh, resultIsErr]
    | Unknown =>
      cases hh : win.hide <;>
        simp [linux_hide_window, hideTail, hyprMovePath, hh, resultIsErr]

/-- Claim C2 counterexample: on Hyprland with the window reported visible
on another workspace, `hide_window` reports the show-like outcome "Window
moved to current workspace" and emits `rua://window-shown`, yet its call
trace contains neither the generic GUI-layer show nor the generic hide —
refuting the claim that every path ends by invoking one of them. -/
theorem C2_counterexample :
    (linux_hide_window envHyprElsewhere).2
      = Except.ok "Window moved to current workspace" ∧
    CallEv.emit "rua://window-shown" ∈ (linux_hide_window envHyprElsewhere).1 ∧
    CallEv.guiShow ∉ (linux_hide_window envHyprElsewhere).1 ∧
    CallEv.guiHide ∉ (linux_hide_window envHyprElsewhere).1 := by
  refine ⟨rfl, by decide, by decide, by decide⟩

/-- Claim C2 as amended: every `show_window` path invokes the generic
GUI-layer show; every `hide_window` path invokes the generic hide EXCEPT
the Hyprland path taken when the window is visible on another workspace,
which invokes the generic center and focus, emits `rua://window-shown`,
and invokes neither the generic show nor the generic hide. -/
theorem C2_generic_layer_calls (env : OrchEnv) :
    CallEv.guiShow ∈ (linux_show_window env).1 ∧
    (hyprMovePath env = false → CallEv.guiHide ∈ (linux_hide_window env).1) ∧
    (hyprMovePath env = true →
      CallEv.guiShow ∉ (linux_hide_window env).1 ∧
      CallEv.guiHide ∉ (linux_hide_window env).1 ∧
      CallEv.guiCenter ∈ (linux_hide_window env).1 ∧
      CallEv.guiSetFocus ∈ (linux_hide_window env).1 ∧
      CallEv.emit "rua://window-shown" ∈ (linux_hide_window env).1) := by
  obtain ⟨ds, mv, ioc, fbc, x11, win⟩ := env
  refine ⟨?_, ?_, ?_⟩
  · cases hs : win.show' <;> simp [linux_show_window, hs]
  · intro hpath
    cases ds with
    | Hyprland =>
      cases ioc with
      | ok b =>
        cases b with
        | true => cases hh : win.hide <;> simp [linux_hide_window, hideTail, hh]
        | false => simp [hyprMovePath] at hpath
      | error e => cases hh : win.hide <;> simp [linux_hide_window, hideTail, hh]
    | X11 => cases hh : win.hide <;> simp [linux_hide_window, hideTail, hh]
    | Unknown => cases hh : win.hide <;> simp [linux_hide_window, hideTail, hh]
  · intro hpath
    cases ds with
    | Hyprland =>
      cases ioc with
      | ok b =>
        cases b with
        | true => simp [hyprMovePath] at hpath
        | false => simp [linux_hide_window]
      | error e => simp [hyprMovePath] at hpath
    | X11 => simp [hyprMovePath] at hpath
    | Unknown => simp [hyprMovePath] at hpath

/-- Claim C2 witness: on X11 without a connection the hide path performs
the generic hide; on the Hyprland other-workspace path the trace carries
the `rua://window-shown` event. -/
theorem C2_witness :
    CallEv.guiShow ∈ (linux_show_window envX11NoConn).1 ∧
    CallEv.guiHide ∈ (linux_hide_window envX11NoConn).1 ∧
    CallEv.emit "rua://window-shown" ∈ (linux_hide_window envHyprElsewhere).1 :=
  ⟨(C2_generic_layer_calls envX11NoConn).1,
   (C2_generic_layer_calls envX11NoConn).2.1 (by decide),
   ((C2_generic_layer_calls envHyprElsewhere).2.2 (by decide)).2.2.2.2⟩

/-- Helper for claim C1: outside the Hyprland other-workspace path, and
with the generic show/hide calls succeeding, one toggle flips the generic
visibility flag. -/
theorem toggle_flag_flips (env : OrchEnv) (v : Bool)
    (hs : env.win.show' = Except.ok ()) (hh : env.win.hide = Except.ok ())
    (hx : ¬(v = true ∧ hyprMovePath env = true)) :
    (toggle env v).1 = !v := by
  obtain ⟨ds, mv, ioc, fbc, x11, win⟩ := env
  dsimp only at hs hh
  cases v with
  | false =>
    simp [toggle, linux_show_window, hs, runFlag, List.foldl_append, applyCall]
  | true =>
    cases ds with
    | Hyprland =>
      cases ioc with
      | ok b =>
        cases b with
        | true =>
          simp [toggle, linux_hide_window, hideTail, hh, runFlag,
            List.foldl_append, applyCall]
        | false => exact absurd ⟨rfl, rfl⟩ hx
      | error e =>
        simp [toggle, linux_hide_window, hideTail, hh, runFlag,
          List.foldl_append, applyCall]
    | X11 =>
      simp [toggle, linux_hide_window, hideTail, hh, runFlag,
        List.foldl_append, applyCall]
    | Unknown =>
      simp [toggle, linux_hide_window, hideTail, hh, runFlag,
        List.foldl_append, applyCall]

/-- Claim C1 counterexample: on Hyprland, starting from a visible flag with
the window reported on another workspace (every call succeeding), one
toggle leaves the flag visible instead of the requested hidden state; and
starting hidden, toggling twice (second toggle hitting that same state)
ends visible rather than back at hidden. -/
theorem C1_counterexample :
    (toggle envHyprElsewhere true).1 = true ∧
    ¬((toggle envHyprElsewhere true).1 = false) ∧
    (toggle envUnknownOk false).1 = true ∧
    ¬((toggle envHyprElsewhere (toggle envUnknownOk false).1).1 = false) := by
  refine ⟨by decide, by decide, by decide, by decide⟩

/-- Claim C1 as amended: for every display-server kind and starting flag
value, with the generic show/hide calls succeeding, one toggle flips the
generic visibility flag to the requested end state, and a second toggle
restores the original value — EXCEPT when a toggle starts from a visible
flag on the Hyprland path whose workspace check answers `Ok(false)`
(window on another workspace): that toggle moves the window and leaves the
flag visible. -/
theorem C1_toggle_round_trip (e1 e2 : OrchEnv) (v : Bool)
    (h1s : e1.win.show' = Except.ok ()) (h1h : e1.win.hide = Except.ok ())
    (h2s : e2.win.show' = Except.ok ()) (h2h : e2.win.hide = Except.ok ())
    (hx1 : ¬(v = true ∧ hyprMovePath e1 = true))
    (hx2 : ¬((!v) = true ∧ hyprMovePath e2 = true)) :
    (toggle e1 v).1 = !v ∧ (toggle e2 (toggle e1 v).1).1 = v := by
  have t1 := toggle_flag_flips e1 v h1s h1h hx1
  have t2 := toggle_flag_flips e2 (!v) h2s h2h hx2
  refine ⟨t1, ?_⟩
  rw [t1, t2, Bool.not_not]

/-- Claim C1 witness: from hidden, a toggle under an unknown display
server shows the window; a second toggle under Hyprland with the window on
the current workspace hides it again. -/
theorem C1_witness :
    (toggle envUnknownOk false).1 = !false ∧
    (toggle envHyprOnCurrent (toggle envUnknownOk false).1).1 = false :=
  C1_toggle_round_trip envUnknownOk envHyprOnCurrent false rfl rfl rfl rfl
    (by simp) (by decide)
